import Mathlib

set_option maxRecDepth 100000

/-!
Verification development for the block-based LaTeX round-trip engine of the
ECES Barometer repository (src/block_system.py).  Python functions are given
as executable Lean definitions: dictionaries become insertion-ordered
association lists, Python plain values become the inductive type `Value`,
raised exceptions become `Except` errors, and `None`-able results become `Option`.
-/

/-- Models the enum `BlockType` (block_system.py lines 16-29). -/
inductive BlockType where
  | paragraph
  | title
  | chart
  | bulletList
  | textChartRow
  | spacer
  | highlightBox
  | subheaderLegend
  | pageSetup
deriving DecidableEq

/-- The `.value` string of each `BlockType` member (lines 19-29). -/
def BlockType.value : BlockType → String
  | .paragraph => "paragraph"
  | .title => "title"
  | .chart => "chart"
  | .bulletList => "bullet_list"
  | .textChartRow => "text_chart_row"
  | .spacer => "spacer"
  | .highlightBox => "highlight_box"
  | .subheaderLegend => "subheader_legend"
  | .pageSetup => "page_setup"

/-- Models the constructor call `BlockType(s)`: `some` for a valid enum value
string, `none` where Python raises `ValueError`. -/
def BlockType.ofValue : String → Option BlockType
  | "paragraph" => some .paragraph
  | "title" => some .title
  | "chart" => some .chart
  | "bullet_list" => some .bulletList
  | "text_chart_row" => some .textChartRow
  | "spacer" => some .spacer
  | "highlight_box" => some .highlightBox
  | "subheader_legend" => some .subheaderLegend
  | "page_setup" => some .pageSetup
  | _ => none

/-- The Python `str()` rendering of a `BlockType` member, as used in the
f-string error message of `BlockManager.add_block` (line 462). -/
def BlockType.pyName : BlockType → String
  | .paragraph => "BlockType.PARAGRAPH"
  | .title => "BlockType.TITLE"
  | .chart => "BlockType.CHART"
  | .bulletList => "BlockType.BULLET_LIST"
  | .textChartRow => "BlockType.TEXT_CHART_ROW"
  | .spacer => "BlockType.SPACER"
  | .highlightBox => "BlockType.HIGHLIGHT_BOX"
  | .subheaderLegend => "BlockType.SUBHEADER_LEGEND"
  | .pageSetup => "BlockType.PAGE_SETUP"

/-- Models the enum `SectionType` (lines 32-39). -/
inductive SectionType where
  | executiveSummary
  | macroOverview
  | analysisOverall
  | constraints
  | subindices
  | tables
deriving DecidableEq

/-- The Python `str()` rendering of a `SectionType` member. -/
def SectionType.pyName : SectionType → String
  | .executiveSummary => "SectionType.EXECUTIVE_SUMMARY"
  | .macroOverview => "SectionType.MACRO_OVERVIEW"
  | .analysisOverall => "SectionType.ANALYSIS_OVERALL"
  | .constraints => "SectionType.CONSTRAINTS"
  | .subindices => "SectionType.SUBINDICES"
  | .tables => "SectionType.TABLES"

/-- Plain Python values flowing through the block system: `None`, booleans,
integers, strings, lists, and string-keyed dictionaries (modelled as
insertion-ordered association lists with unique keys, matching Python dict
iteration order).  Floating point numbers flow through the system only as
opaque payloads (the parser calls `float()` on matched text and nothing ever
computes with the result), so a float is carried as its literal text. -/
inductive Value where
  | null
  | bool (b : Bool)
  | int (n : Int)
  | str (s : String)
  | float (lit : String)
  | list (xs : List Value)
  | dict (entries : List (String × Value))

/-- Models `d.get(key)` / `d[key]` on a Python dict: the value at the first
matching key. -/
def dictGet : List (String × Value) → String → Option Value
  | [], _ => none
  | (k, v) :: rest, key => if k = key then some v else dictGet rest key

/-- Models `d[key] = v` on a Python dict: replace in place when the key
exists, otherwise append (dict insertion order). -/
def dictSet (d : List (String × Value)) (key : String) (v : Value) :
    List (String × Value) :=
  if d.any (fun p => p.1 = key) then
    d.map (fun p => if p.1 = key then (key, v) else p)
  else
    d ++ [(key, v)]

/-- Models `old.update(new)` on Python dicts: shallow merge, new keys
overwrite in place, unspecified keys are retained. -/
def dictUpdate (old new : List (String × Value)) : List (String × Value) :=
  new.foldl (fun d p => dictSet d p.1 p.2) old

/-- Models `d.pop(key, None)` restricted to its effect on the dict. -/
def dictPop (d : List (String × Value)) (key : String) :
    List (String × Value) :=
  d.filter (fun p => p.1 ≠ key)

/-- Models the dataclass `Block` (lines 46-52): a typed content unit.
`content` is the variant-shaped payload, `metadata` a Python dict, and
`estimated_height` an integer pixel estimate (dataclass default 50). -/
structure Block where
  type : BlockType
  content : Value
  metadata : List (String × Value)
  estimated_height : Int

/-- Models `Block.to_dict` (lines 61-68): serialize to a plain dict. -/
def Block.toDict (b : Block) : Value :=
  .dict [("type", .str b.type.value),
         ("content", b.content),
         ("metadata", .dict b.metadata),
         ("estimated_height", .int b.estimated_height)]

/-- Models `Block.from_dict` (lines 70-78).  `none` models the exceptions
Python would raise: a missing `type` or `content` key (`KeyError`), an
invalid type string (`ValueError` from `BlockType(...)`), or a `metadata` or
`estimated_height` field whose shape the typed `Block` record cannot hold
(Python would store it unchecked; no serialized form produced by `to_dict`
has that shape). -/
def Value.asStr? : Value → Option String
  | .str s => some s
  | _ => none

/-- The `data.get("metadata", \x7b\x7d)` read of `from_dict`: absent means
the empty dict, a present non-dict value cannot inhabit the typed field. -/
def mdField : Option Value → Option (List (String × Value))
  | some (.dict m) => some m
  | none => some []
  | some _ => none

/-- The `data.get("estimated_height", 50)` read of `from_dict`: absent means
50, a present non-integer value cannot inhabit the typed field. -/
def heightField : Option Value → Option Int
  | some (.int n) => some n
  | none => some 50
  | some _ => none

/-- Models `Block.from_dict` (lines 70-78) from the pieces above. -/
def Block.fromDict (data : Value) : Option Block :=
  match data with
  | .dict d => do
      let tVal ← dictGet d "type"
      let tStr ← tVal.asStr?
      let bt ← BlockType.ofValue tStr
      let content ← dictGet d "content"
      let md ← mdField (dictGet d "metadata")
      let h ← heightField (dictGet d "estimated_height")
      some ⟨bt, content, md, h⟩
  | _ => none

mutual

/-- Python `repr()` for the modelled value universe, used only through
`pyStr` below.  String escaping inside nested reprs is not reproduced
(no claim evaluates it); quotes are rendered as plain apostrophes. -/
def pyRepr : Value → String
  | .null => "None"
  | .bool true => "True"
  | .bool false => "False"
  | .int n => toString n
  | .str s => "\x27" ++ s ++ "\x27"
  | .float lit => lit
  | .list xs => "[" ++ pyReprList xs ++ "]"
  | .dict d => "\x7b" ++ pyReprEntries d ++ "\x7d"

/-- Comma-joined reprs of a list of values. -/
def pyReprList : List Value → String
  | [] => ""
  | [v] => pyRepr v
  | v :: rest => pyRepr v ++ ", " ++ pyReprList rest

/-- Comma-joined reprs of dict entries. -/
def pyReprEntries : List (String × Value) → String
  | [] => ""
  | [(k, v)] => "\x27" ++ k ++ "\x27: " ++ pyRepr v
  | (k, v) :: rest => "\x27" ++ k ++ "\x27: " ++ pyRepr v ++ ", " ++ pyReprEntries rest

end

/-- Python `str()` on a value: the string itself for strings, `repr`-style
rendering otherwise (as `str(block.content)` does at line 378). -/
def pyStr : Value → String
  | .str s => s
  | v => pyRepr v

/-- Models `estimate_block_height` (lines 373-421).  Python numeric-tower
edge cases are mirrored where they stay well typed (`True == 1` for the
title-level lookup, booleans as 0/1 chart heights); a non-numeric stored
chart height or a non-string text payload would raise `TypeError` at the
Python call site and is modelled by the same default the absent key takes
(no claim exercises those shapes). -/
def estimate_block_height (b : Block) : Int :=
  match b.type with
  | .paragraph =>
      let chars : Nat := (pyStr b.content).length
      let lines : Nat := max 1 (chars / 100)
      ((lines * 15 + 10 : Nat) : Int)
  | .title =>
      match dictGet b.metadata "level" with
      | none => 45
      | some (.int 1) => 45
      | some (.int 2) => 35
      | some (.int 3) => 25
      | some (.bool true) => 45
      | some _ => 25
  | .chart =>
      match dictGet b.metadata "height" with
      | some (.int n) => n
      | some (.bool true) => 1
      | some (.bool false) => 0
      | _ => 200
  | .bulletList =>
      match b.content with
      | .list items => ((items.length * 22 + 15 : Nat) : Int)
      | _ => 15
  | .textChartRow =>
      let text : String :=
        match b.content with
        | .dict d =>
            match dictGet d "text" with
            | some (.str s) => s
            | _ => ""
        | _ => ""
      let textHeight : Int := ((text.length / 80 * 15 + 20 : Nat) : Int)
      max textHeight 180
  | .highlightBox =>
      match b.content with
      | .list sections =>
          sections.foldl (fun total s =>
            let c : String :=
              match s with
              | .dict d =>
                  match dictGet d "content" with
                  | some (.str cs) => cs
                  | _ => ""
              | _ => ""
            total + ((c.length / 80 * 15 + 30 : Nat) : Int)) 30
      | _ => 30
  | .subheaderLegend => 60
  | .pageSetup => 0
  | .spacer => 20

/-- Loop body of `calculate_page_breaks`: walk the blocks with the running
index, the accumulated height of the current page, and emit break indices. -/
def calcBreaksAux : List Block → Int → Int → Nat → List Nat
  | [], _, _, _ => []
  | b :: rest, pageHeight, currentHeight, i =>
      let blockHeight := estimate_block_height b
      if currentHeight + blockHeight > pageHeight ∧ currentHeight > 0 then
        i :: calcBreaksAux rest pageHeight blockHeight (i + 1)
      else
        calcBreaksAux rest pageHeight (currentHeight + blockHeight) (i + 1)

/-- Models `calculate_page_breaks` (lines 424-443): greedy single-pass page
break planner returning block indices where pages should break. -/
def calculate_page_breaks (blocks : List Block) (page_height : Int := 750) :
    List Nat :=
  calcBreaksAux blocks page_height 0 0

/-- Models the `SECTION_PALETTES` table (lines 311-366) as a total function;
the dict covers every `SectionType` member, so the `.get` default
`list(BlockType)` at line 456 is unreachable. -/
def SECTION_PALETTES : SectionType → List BlockType
  | .executiveSummary =>
      [.pageSetup, .title, .paragraph, .subheaderLegend, .highlightBox,
       .textChartRow, .chart, .bulletList, .spacer]
  | .macroOverview =>
      [.pageSetup, .title, .paragraph, .chart, .textChartRow, .bulletList,
       .spacer]
  | .analysisOverall =>
      [.pageSetup, .title, .paragraph, .chart, .textChartRow, .bulletList,
       .spacer]
  | .constraints =>
      [.pageSetup, .title, .paragraph, .chart, .textChartRow, .bulletList,
       .spacer]
  | .subindices =>
      [.pageSetup, .title, .paragraph, .chart, .textChartRow, .bulletList,
       .spacer]
  | .tables =>
      [.pageSetup, .title, .paragraph, .chart, .spacer]

/-- Models the class `BlockManager` state (lines 450-456). -/
structure BlockManager where
  section_type : SectionType
  blocks : List Block
  available_blocks : List BlockType

/-- Models `BlockManager.__init__` (lines 453-456): empty block list and the
per-section palette. -/
def BlockManager.init (st : SectionType) : BlockManager :=
  ⟨st, [], SECTION_PALETTES st⟩

/-- Models Python `list.insert(i, a)` including its clamping of negative and
oversized indices. -/
def pyInsert (xs : List α) (i : Int) (a : α) : List α :=
  let n : Int := xs.length
  let idx : Nat := if i < 0 then (max 0 (i + n)).toNat else min i.toNat xs.length
  xs.take idx ++ a :: xs.drop idx

/-- Models Python `list.pop(i)` for an in-range natural index: the list with
element `i` removed. -/
def popAt (xs : List α) (i : Nat) : List α :=
  xs.take i ++ xs.drop (i + 1)

/-- Models `BlockManager.add_block` (lines 458-476).  The `ValueError` the
source raises for a type outside the palette becomes `Except.error` carrying
the f-string message; on success the new manager state and the created block
are returned.  `metadata or \x7b\x7d` maps `None` (and the falsy empty dict)
to the empty dict. -/
def BlockManager.addBlock (m : BlockManager) (block_type : BlockType)
    (content : Value) (metadata : Option (List (String × Value)) := none)
    (position : Option Int := none) :
    Except String (BlockManager × Block) :=
  if block_type ∉ m.available_blocks then
    .error ("Block type " ++ block_type.pyName ++ " not available in "
            ++ m.section_type.pyName)
  else
    let b0 : Block := ⟨block_type, content, metadata.getD [], 50⟩
    let b : Block := { b0 with estimated_height := estimate_block_height b0 }
    match position with
    | none => .ok ({ m with blocks := m.blocks ++ [b] }, b)
    | some p => .ok ({ m with blocks := pyInsert m.blocks p b }, b)

/-- Models `BlockManager.remove_block` (lines 478-482): pop and return the
block at an in-range index, `none` (and no mutation) otherwise. -/
def BlockManager.removeBlock (m : BlockManager) (index : Int) :
    BlockManager × Option Block :=
  if 0 ≤ index ∧ index < (m.blocks.length : Int) then
    ({ m with blocks := popAt m.blocks index.toNat },
     m.blocks.get? index.toNat)
  else
    (m, none)

/-- Models `BlockManager.move_block` (lines 484-493): pop `from_index`,
decrement `to_index` when it exceeds `from_index`, reinsert, return `true`;
out-of-range indices return `false` with no mutation. -/
def BlockManager.moveBlock (m : BlockManager) (from_index to_index : Int) :
    BlockManager × Bool :=
  if 0 ≤ from_index ∧ from_index < (m.blocks.length : Int)
      ∧ 0 ≤ to_index ∧ to_index ≤ (m.blocks.length : Int) then
    match m.blocks.get? from_index.toNat with
    | some block =>
        let rest := popAt m.blocks from_index.toNat
        let t : Int := if to_index > from_index then to_index - 1 else to_index
        ({ m with blocks := pyInsert rest t block }, true)
    | none => (m, false)
  else
    (m, false)

/-- Models `BlockManager.update_block` (lines 495-505): replace content when
given, shallow-merge metadata when given, recompute the height, return
`true`; out-of-range indices return `false` with no mutation. -/
def BlockManager.updateBlock (m : BlockManager) (index : Int)
    (content : Option Value := none)
    (metadata : Option (List (String × Value)) := none) :
    BlockManager × Bool :=
  if 0 ≤ index ∧ index < (m.blocks.length : Int) then
    match m.blocks.get? index.toNat with
    | some b =>
        let b1 : Block := { b with content := content.getD b.content,
                                   metadata := match metadata with
                                     | some md => dictUpdate b.metadata md
                                     | none => b.metadata }
        let b2 : Block := { b1 with estimated_height := estimate_block_height b1 }
        ({ m with blocks := m.blocks.set index.toNat b2 }, true)
    | none => (m, false)
  else
    (m, false)

/-- Models `BlockManager.get_page_breaks` (lines 520-522). -/
def BlockManager.getPageBreaks (m : BlockManager) : List Nat :=
  calculate_page_breaks m.blocks

/-- Models `BlockManager.get_total_height` (lines 524-526): the heights are
recomputed by the estimator, not read from the stored field. -/
def BlockManager.getTotalHeight (m : BlockManager) : Int :=
  (m.blocks.map estimate_block_height).sum

/-- Models `BlockManager.export_json` (lines 528-530). -/
def BlockManager.exportJson (m : BlockManager) : List Value :=
  m.blocks.map Block.toDict

/-- Models `BlockManager.import_json` (lines 532-534): replace the block list
with the deserialized blocks, in the order of the given data; `none` models
the exception `Block.from_dict` would raise on malformed data. -/
def BlockManager.importJson (m : BlockManager) (data : List Value) :
    Option BlockManager :=
  (data.mapM Block.fromDict).map (fun bs => { m with blocks := bs })

/-!
The LaTeX parser (`LaTeXParser`, lines 627-1270).  The class carries only an
unused `section_type`, so its methods are modelled as plain functions.  The
source is regex-driven; each Python pattern is transcribed literally into
the small regex AST `Rx` below and run by a backtracking matcher with
Python-compatible semantics (leftmost match, left-biased alternation,
greedy/lazy quantifiers, last-wins group capture, zero-width lookahead,
backreferences, and the end anchor that also matches just before a final
newline).  Every quantified subpattern in the source is a single-character
class, which the AST builds in directly, so the matcher terminates
structurally.
-/

/-- Python whitespace for `\s`, `str.strip` and `str.split` (ASCII range;
the repository markup is ASCII). -/
def pspace (c : Char) : Bool :=
  c == ' ' || c == '\t' || c == '\n' || c == '\r' || c == '\x0b' || c == '\x0c'

/-- Python `\w` (ASCII range). -/
def wchar (c : Char) : Bool :=
  c.isAlphanum || c == '_'

/-- Python `\d`. -/
def pdigit (c : Char) : Bool := c.isDigit

/-- The regex `.` under `re.DOTALL`. -/
def dotNL (_ : Char) : Bool := true

/-- The regex `.` without `re.DOTALL`. -/
def dotNoNL (c : Char) : Bool := c != '\n'

/-- The regex class `[^\x7d]`. -/
def nonBrace (c : Char) : Bool := c != '}'

/-- The regex class `[^\x5d]`. -/
def nonBracketC (c : Char) : Bool := c != ']'

/-- The regex class `[^,\x5d]`. -/
def nonCommaBracket (c : Char) : Bool := c != ',' && c != ']'

/-- The regex class `[^\n\x5c]`. -/
def nonNLBack (c : Char) : Bool := c != '\n' && c != '\\'

/-- Python `str.strip()` on a character list. -/
def pyStripChars (cs : List Char) : List Char :=
  ((cs.dropWhile pspace).reverse.dropWhile pspace).reverse

/-- Python `str.strip()`. -/
def pyStrip (s : String) : String :=
  String.mk (pyStripChars s.toList)

/-- Python `str.lower()` (ASCII). -/
def pyLower (s : String) : String :=
  String.mk (s.toList.map Char.toLower)

/-- Python `int(s)` on a digit string. -/
def natOfDigits (s : String) : Nat :=
  s.toList.foldl (fun n c => n * 10 + (c.toNat - 48)) 0

/-- Python `str.split()` with no separator: whitespace-run splitting with no
empty parts. -/
def wsWords : List Char → List String
  | [] => []
  | c :: cs =>
      if pspace c then wsWords cs
      else
        String.mk (c :: cs.takeWhile (fun x => !pspace x)) ::
          wsWords (cs.dropWhile (fun x => !pspace x))
termination_by cs => cs.length
decreasing_by
  · simp only [List.length_cons]; omega
  · simp only [List.length_cons]
    exact Nat.lt_succ_of_le ((List.IsSuffix.sublist (List.dropWhile_suffix _)).length_le)

/-- If `pat` leads `s`, the remainder of `s` after it. -/
def leadMatch : List Char → List Char → Option (List Char)
  | [], s => some s
  | _ :: _, [] => none
  | p :: ps, c :: cs => if c == p then leadMatch ps cs else none

/-- Python `pat in s` substring containment on character lists. -/
def containsSub (cs : List Char) (pat : String) : Bool :=
  match cs with
  | [] => (leadMatch pat.toList []).isSome
  | _ :: rest =>
      (leadMatch pat.toList cs).isSome || containsSub rest pat

/-- The regex fragment used by the source: literals, single-character
classes, sequencing, alternation, quantifiers over classes, optional
subpatterns, numbered capture groups, backreferences, lookahead, and the
`$` anchor. -/
inductive Rx where
  | eps
  | lit (l : List Char)
  | cls (p : Char → Bool)
  | seq (a b : Rx)
  | alt (a b : Rx)
  | starCls (p : Char → Bool) (greedy : Bool)
  | optR (a : Rx)
  | group (n : Nat) (a : Rx)
  | backref (n : Nat)
  | look (a : Rx)
  | eol

/-- Literal pattern from a string. -/
def rlit (s : String) : Rx := .lit s.toList

/-- Sequencing of a pattern list. -/
def rseq : List Rx → Rx
  | [] => .eps
  | [r] => r
  | r :: rest => .seq r (rseq rest)

/-- `p*` (greedy when the flag is true, lazy otherwise). -/
def rstar (p : Char → Bool) (greedy : Bool) : Rx := .starCls p greedy

/-- `p+`. -/
def rplus (p : Char → Bool) (greedy : Bool) : Rx :=
  .seq (.cls p) (.starCls p greedy)

/-- Numbered capture group. -/
def rcap (n : Nat) (r : Rx) : Rx := .group n r

/-- Greedy `?`, the only optionality the source patterns use. -/
def ropt (r : Rx) : Rx := .optR r

/-- Group captures: group number to captured text, last capture wins as in
Python. -/
def capSet (caps : List (Nat × List Char)) (n : Nat) (txt : List Char) :
    List (Nat × List Char) :=
  if caps.any (fun p => p.1 = n) then
    caps.map (fun p => if p.1 = n then (n, txt) else p)
  else
    caps ++ [(n, txt)]

/-- Captured text of a group, `none` when the group did not participate. -/
def capGet (caps : List (Nat × List Char)) (n : Nat) : Option (List Char) :=
  (caps.find? (fun p => p.1 = n)).map (fun p => p.2)

/-- First success over a candidate list. -/
def pickFirst : List Nat → (Nat → Option α) → Option α
  | [], _ => none
  | i :: rest, f =>
      match f i with
      | some r => some r
      | none => pickFirst rest f

/-- Backtracking matcher in continuation style.  The continuation receives
the remaining suffix and the captures; choice points try candidates in
Python priority order. -/
def mwalk : Rx → List Char → List (Nat × List Char) →
    (List Char → List (Nat × List Char) → Option (List Char × List (Nat × List Char))) →
    Option (List Char × List (Nat × List Char))
  | .eps, s, caps, k => k s caps
  | .lit l, s, caps, k =>
      match leadMatch l s with
      | some r => k r caps
      | none => none
  | .cls p, s, caps, k =>
      match s with
      | c :: cs => if p c then k cs caps else none
      | [] => none
  | .seq a b, s, caps, k => mwalk a s caps (fun s2 c2 => mwalk b s2 c2 k)
  | .alt a b, s, caps, k =>
      match mwalk a s caps k with
      | some r => some r
      | none => mwalk b s caps k
  | .starCls p greedy, s, caps, k =>
      let n := (s.takeWhile p).length
      let order := if greedy then (List.range (n + 1)).reverse else List.range (n + 1)
      pickFirst order (fun i => k (s.drop i) caps)
  | .optR a, s, caps, k =>
      match mwalk a s caps k with
      | some r => some r
      | none => k s caps
  | .group n a, s, caps, k =>
      mwalk a s caps (fun s2 c2 => k s2 (capSet c2 n (s.take (s.length - s2.length))))
  | .backref n, s, caps, k =>
      match capGet caps n with
      | some txt =>
          match leadMatch txt s with
          | some r => k r caps
          | none => none
      | none => none
  | .look a, s, caps, k =>
      match mwalk a s caps (fun s2 c2 => some (s2, c2)) with
      | some _ => k s caps
      | none => none
  | .eol, s, caps, k => if s = [] ∨ s = ['\n'] then k s caps else none

/-- Anchored match attempt at the head of `s`. -/
def matchHere (r : Rx) (s : List Char) :
    Option (List Char × List (Nat × List Char)) :=
  mwalk r s [] (fun s2 c2 => some (s2, c2))

/-- One regex match: start offset, matched text, remaining suffix, and
captures. -/
structure MatchInfo where
  start : Nat
  matched : List Char
  rest : List Char
  caps : List (Nat × List Char)

/-- Python `re.search` scanning from offset `idx`. -/
def rsearchAux (r : Rx) : List Char → Nat → Option MatchInfo
  | s, idx =>
      match matchHere r s with
      | some (rest, caps) =>
          some ⟨idx, s.take (s.length - rest.length), rest, caps⟩
      | none =>
          match s with
          | [] => none
          | _ :: cs => rsearchAux r cs (idx + 1)

/-- Python `re.search`. -/
def rsearch (r : Rx) (s : List Char) : Option MatchInfo :=
  rsearchAux r s 0

/-- Python `re.finditer` combined with `re.sub(pattern, repl, s)`: the match
list together with the text in which every match is replaced by `repl`
applied to it.  The fuel is the text length; every recursion consumes at
least one character, so the zero-fuel case is unreachable. -/
def rscanAux (r : Rx) (repl : MatchInfo → List Char) :
    Nat → List Char → Nat → List MatchInfo × List Char
  | 0, s, _ => ([], s)
  | fuel + 1, s, idx =>
      match rsearchAux r s idx with
      | none => ([], s)
      | some res =>
          let pre := s.take (res.start - idx)
          let consumed := res.matched.length
          if consumed = 0 then ([], s)
          else
            let (ms, residual) :=
              rscanAux r repl fuel (s.drop (res.start - idx + consumed))
                (res.start + consumed)
            (res :: ms, pre ++ repl res ++ residual)

/-- All matches of `r` in `s` together with `s` with the matches deleted
(the `finditer` pass followed by `re.sub(pattern, ..., content)` idiom of
the source). -/
def rscanAll (r : Rx) (s : List Char) : List MatchInfo × List Char :=
  rscanAux r (fun _ => []) s.length s 0

/-- Python `re.sub` with a replacement built from the match. -/
def rsubAll (r : Rx) (repl : MatchInfo → List Char) (s : List Char) : List Char :=
  (rscanAux r repl s.length s 0).2

/-- Python `re.findall` returning group 1 of each match. -/
def rfindall1 (r : Rx) (s : List Char) : List String :=
  (rscanAll r s).1.map (fun m => String.mk ((capGet m.caps 1).getD []))

/-- Captured group as a string, the empty string when absent. -/
def capStr (m : MatchInfo) (n : Nat) : String :=
  String.mk ((capGet m.caps n).getD [])

/-- Python `s.split(sep)` for a single-character separator, on character
lists (empty input gives one empty part, as in Python).  Implemented
structurally so that concrete runs reduce definitionally. -/
def splitChar (sep : Char) : List Char → List (List Char)
  | [] => [[]]
  | c :: rest =>
      if c = sep then [] :: splitChar sep rest
      else
        match splitChar sep rest with
        | h :: t => (c :: h) :: t
        | [] => [[c]]

/-- Python `s.split('\n')`. -/
def pySplitLines (s : String) : List String :=
  (splitChar '\n' s.toList).map String.mk

/-- Python `s.startswith(pre)`. -/
def startsLit (pre s : String) : Bool :=
  (leadMatch pre.toList s.toList).isSome


/-- Models `re.match(r'%\s*BLOCK:(\w+)(?:\s+(.+?))?$', line.strip())` of
`_parse_by_markers` (lines 676, 685), returning the marker type name and the
optional metadata tail.  The anchored match on the stripped line succeeds
exactly when the line is a percent sign, optional whitespace, `BLOCK:`, a
nonempty word, and optionally whitespace followed by a nonempty tail (the
lazy `.+?` before `$` captures the whole tail; a stripped single line holds
no newline, so the inner-newline and trailing-newline cases of `.` and `$`
cannot arise). -/
def matchMarkerLine (raw : String) : Option (String × Option String) :=
  match pyStripChars raw.toList with
  | '%' :: rest =>
      let rest2 := rest.dropWhile pspace
      match leadMatch "BLOCK:".toList rest2 with
      | none => none
      | some rest3 =>
          let word := rest3.takeWhile wchar
          let afterWord := rest3.dropWhile wchar
          if word.isEmpty then none
          else
            match afterWord with
            | [] => some (String.mk word, none)
            | c :: _ =>
                if pspace c then
                  some (String.mk word, some (String.mk (afterWord.dropWhile pspace)))
                else none
  | _ => none

/-- Models the value conversion of `_parse_metadata_string` (lines 660-668):
`true`/`false` case-insensitively, digit strings as ints, anything else as
the raw string. -/
def metaConvert (val : String) : Value :=
  if pyLower val = "true" then .bool true
  else if pyLower val = "false" then .bool false
  else if val.length > 0 && val.toList.all Char.isDigit then .int (natOfDigits val)
  else .str val

/-- Models `_parse_metadata_string` (lines 650-669): split the marker tail
on whitespace and read `key=value` pairs (`split('=', 1)`, so the value may
itself contain `=`). -/
def parseMetadataString : Option String → List (String × Value)
  | none => []
  | some s =>
      (wsWords (pyStripChars s.toList)).foldl (fun md part =>
        if part.toList.contains '=' then
          let k := String.mk (part.toList.takeWhile (fun c => c != '='))
          let v := String.mk ((part.toList.dropWhile (fun c => c != '=')).drop 1)
          dictSet md k (metaConvert v)
        else md) []

/-- The marker name to `BlockType` table of `_create_block_from_marker`
(lines 739-749). -/
def typeMap : String → Option BlockType
  | "PAGE_SETUP" => some .pageSetup
  | "TITLE" => some .title
  | "PARAGRAPH" => some .paragraph
  | "CHART" => some .chart
  | "BULLET_LIST" => some .bulletList
  | "TEXT_CHART_ROW" => some .textChartRow
  | "HIGHLIGHT_BOX" => some .highlightBox
  | "SUBHEADER_LEGEND" => some .subheaderLegend
  | "SPACER" => some .spacer
  | _ => none

/-- Transcribes `\\includegraphics\[.*?\]\{([^\x7d]+)\}` (lines 763, 944,
973; searched without `re.DOTALL`, so the dot excludes newlines). -/
def incgDotPattern : Rx :=
  rseq [rlit "\\includegraphics[", rstar dotNoNL false, rlit "]\x7b",
        rcap 1 (rplus nonBrace true), rlit "\x7d"]

/-- Transcribes `\\includegraphics\[[^\x5d]*\]\{([^\x7d]+)\}` (lines 811,
822, 852). -/
def incgBracketPattern : Rx :=
  rseq [rlit "\\includegraphics[", rstar nonBracketC true, rlit "]\x7b",
        rcap 1 (rplus nonBrace true), rlit "\x7d"]

/-- Transcribes `\\textbf\{(\d+)\}` (lines 766, 948, 976). -/
def textbfNumPattern : Rx :=
  rseq [rlit "\\textbf\x7b", rcap 1 (rplus pdigit true), rlit "\x7d"]

/-- Transcribes `\\newgeometry\{([^\x7d]+)\}` (line 770). -/
def newgeomPattern : Rx :=
  rseq [rlit "\\newgeometry\x7b", rcap 1 (rplus nonBrace true), rlit "\x7d"]

/-- Models the geometry parameter loop shared by
`_create_block_from_marker` (lines 773-776) and `_extract_page_setups`
(lines 938-941): split the directive body on commas and unpack each
`key=value` pair.  A parameter holding more than one `=` makes the Python
tuple unpacking `key, val = param.strip().split('=')` raise
`ValueError`, modelled as the error case. -/
def parseGeomParams (s : String) (init : List (String × Value)) :
    Except String (List (String × Value)) :=
  ((splitChar ',' s.toList).map String.mk).foldlM (fun geom param =>
    if param.toList.contains '=' then
      match (splitChar '=' (pyStripChars param.toList)).map String.mk with
      | [k, v] => pure (dictSet geom (pyStrip k) (.str (pyStrip v)))
      | _ => Except.error "ValueError: too many values to unpack (expected 2)"
    else pure geom) init

/-- Transcribes the title pattern
`\\textbf\{\\color\{\w+\}[^\x7d]*\}?\s*([^\x7d]+)\}` (line 786). -/
def titleMarkerPattern : Rx :=
  rseq [rlit "\\textbf\x7b\\color\x7b", rplus wchar true, rlit "\x7d",
        rstar nonBrace true, ropt (rlit "\x7d"), rstar pspace true,
        rcap 1 (rplus nonBrace true), rlit "\x7d"]

/-- Transcribes the simpler title fallback `\n([^\n\\]+)\n` (line 791). -/
def titleSimplePattern : Rx :=
  rseq [rlit "\n", rcap 1 (rplus nonNLBack true), rlit "\n"]

/-- Transcribes `\\underline\{([^\x7d]+)\}` (line 795), substituted by its
group. -/
def underlinePattern : Rx :=
  rseq [rlit "\\underline\x7b", rcap 1 (rplus nonBrace true), rlit "\x7d"]

/-- Models the TITLE branch of `_create_block_from_marker` (lines 784-796). -/
def titleFromMarker (content : String) : Value :=
  let cs := content.toList
  let raw : String :=
    match rsearch titleMarkerPattern cs with
    | some m => pyStrip (capStr m 1)
    | none =>
        match rsearch titleSimplePattern cs with
        | some m => pyStrip (capStr m 1)
        | none => content
  .str (pyStrip (String.mk
    (rsubAll underlinePattern (fun m => (capGet m.caps 1).getD []) raw.toList)))

/-- Transcribes `\\noindent\s*` (line 801). -/
def noindentWsPattern : Rx :=
  rseq [rlit "\\noindent", rstar pspace true]

/-- Transcribes `\{\\fontsize\{\d+\}\{\d+\}\\selectfont\s*` (line 802). -/
def fontsizeOpenPattern : Rx :=
  rseq [rlit "\x7b\\fontsize\x7b", rplus pdigit true, rlit "\x7d\x7b",
        rplus pdigit true, rlit "\x7d\\selectfont", rstar pspace true]

/-- Transcribes `\\color\{\w+\}\s*` (line 803). -/
def colorWsPattern : Rx :=
  rseq [rlit "\\color\x7b", rplus wchar true, rlit "\x7d", rstar pspace true]

/-- Transcribes `\}\s*\\vspace\{[^\x7d]+\}` (line 804). -/
def braceVspacePattern : Rx :=
  rseq [rlit "\x7d", rstar pspace true, rlit "\\vspace\x7b",
        rplus nonBrace true, rlit "\x7d"]

/-- Models `re.sub(r'^\s*\{', '', text)` (line 805): the start anchor `^`
without `re.MULTILINE` matches only at the beginning, where greedy `\s*`
must reach an opening brace (whitespace can never be that brace, so only
the maximal run can succeed). -/
def cutLeadBrace (cs : List Char) : List Char :=
  match cs.dropWhile pspace with
  | '{' :: r => r
  | _ => cs

/-- Models `re.sub(r'\}\s*$', '', text)` (line 806): `$` matches only at
the end (or just before a final newline, which greedy `\s*` covers), so the
pattern hits exactly a closing brace followed by nothing but whitespace. -/
def cutTailBrace (cs : List Char) : List Char :=
  match (cs.reverse.dropWhile pspace) with
  | '}' :: r => r.reverse
  | _ => cs

/-- Models the PARAGRAPH branch of `_create_block_from_marker`
(lines 798-807): strip LaTeX formatting by the chain of substitutions. -/
def paragraphFromMarker (content : String) : String :=
  let t1 := rsubAll noindentWsPattern (fun _ => []) content.toList
  let t2 := rsubAll fontsizeOpenPattern (fun _ => []) t1
  let t3 := rsubAll colorWsPattern (fun _ => []) t2
  let t4 := rsubAll braceVspacePattern (fun _ => []) t3
  let t5 := cutLeadBrace t4
  let t6 := cutTailBrace t5
  pyStrip (String.mk t6)

/-- Models the CHART branch (lines 809-812). -/
def chartFromMarker (content : String) (metadata : List (String × Value)) :
    Value :=
  match dictGet metadata "file" with
  | some v => v
  | none =>
      .str (match rsearch incgBracketPattern content.toList with
            | some m => capStr m 1
            | none => "ch1.png")

/-- Transcribes `\\item\s*(.*?)(?=\\item|\\end\{itemize\}|$)` with
`re.DOTALL` (line 816). -/
def itemMarkerPattern : Rx :=
  rseq [rlit "\\item", rstar pspace true, rcap 1 (rstar dotNL false),
        .look (.alt (rlit "\\item") (.alt (rlit "\\end\x7bitemize\x7d") .eol))]

/-- Models the BULLET_LIST branch (lines 814-817). -/
def bulletItemsMarker (cs : List Char) : List String :=
  ((rscanAll itemMarkerPattern cs).1.map (fun m => pyStrip (capStr m 1))).filter
    (fun s => s ≠ "")

/-- Transcribes the TEXT_CHART_ROW text pattern
`\\begin\{minipage\}.*?\\fontsize\{\d+\}\{\d+\}\\selectfont\s*(.*?)\\end\{minipage\}`
with `re.DOTALL` (line 821). -/
def textchartMarkerPattern : Rx :=
  rseq [rlit "\\begin\x7bminipage\x7d", rstar dotNL false,
        rlit "\\fontsize\x7b", rplus pdigit true, rlit "\x7d\x7b",
        rplus pdigit true, rlit "\x7d\\selectfont", rstar pspace true,
        rcap 1 (rstar dotNL false), rlit "\\end\x7bminipage\x7d"]

/-- Models the TEXT_CHART_ROW branch (lines 819-827). -/
def textChartFromMarker (content : String) (metadata : List (String × Value)) :
    Value :=
  let cs := content.toList
  let text : String :=
    match rsearch textchartMarkerPattern cs with
    | some m => pyStrip (capStr m 1)
    | none => ""
  let chart : Value :=
    match dictGet metadata "chart" with
    | some v => v
    | none =>
        .str (match rsearch incgBracketPattern cs with
              | some m => capStr m 1
              | none => "ch1.png")
  .dict [("text", .str text), ("chart_file", chart)]

/-- Transcribes the HIGHLIGHT_BOX section pattern of the marker tier
(line 832) with `re.DOTALL`:
`\\textbf\{\\color\{(\w+)\}\s*\\underline\{([^\x7d]+)\}\}\s*\\\\?\s*\\color\{\1\}\s*(.*?)(?=\\textbf\{\\color|\\vspace|$)`
(`\\\\?` is a literal backslash followed by an optional second one). -/
def hbMarkerSectionPattern : Rx :=
  rseq [rlit "\\textbf\x7b\\color\x7b", rcap 1 (rplus wchar true), rlit "\x7d",
        rstar pspace true, rlit "\\underline\x7b", rcap 2 (rplus nonBrace true),
        rlit "\x7d\x7d", rstar pspace true, rlit "\\", ropt (rlit "\\"),
        rstar pspace true, rlit "\\color\x7b", .backref 1, rlit "\x7d",
        rstar pspace true, rcap 3 (rstar dotNL false),
        .look (.alt (rlit "\\textbf\x7b\\color") (.alt (rlit "\\vspace") .eol))]

/-- Models the HIGHLIGHT_BOX branch (lines 829-845). -/
def highlightSectionsMarker (content : String) : List Value :=
  let ms := (rscanAll hbMarkerSectionPattern content.toList).1
  if ms.isEmpty then
    [.dict [("title", .str ""), ("color", .str "black"),
            ("content", .str content)]]
  else
    ms.map (fun m =>
      .dict [("title", .str (pyStrip (capStr m 2))),
             ("color", .str (capStr m 1)),
             ("content", .str (pyStrip (capStr m 3)))])

/-- Transcribes `\\textbf\{\\underline\{([^\x7d]+)\}\}` (lines 849, 1051). -/
def textbfUnderlinePattern : Rx :=
  rseq [rlit "\\textbf\x7b\\underline\x7b", rcap 1 (rplus nonBrace true),
        rlit "\x7d\x7d"]

/-- Models the SUBHEADER_LEGEND branch (lines 847-855). -/
def subheaderFromMarker (content : String) (metadata : List (String × Value)) :
    Value :=
  let cs := content.toList
  let underlines := rfindall1 textbfUnderlinePattern cs
  let text := if underlines.isEmpty then "" else String.intercalate "\n" underlines
  let legend : Value :=
    match dictGet metadata "legend" with
    | some v => v
    | none =>
        .str (match rsearch incgBracketPattern cs with
              | some m => capStr m 1
              | none => "arrow.png")
  .dict [("text", .str text), ("legend_image", legend)]

/-- Shared block construction: build the block, then set its height with the
estimator, as the source does after each extraction. -/
def mkBlock (t : BlockType) (c : Value) (md : List (String × Value)) : Block :=
  let b : Block := ⟨t, c, md, 50⟩
  { b with estimated_height := estimate_block_height b }

/-- Models `_create_block_from_marker` (lines 735-867): `none` for an
unrecognized marker name or empty trimmed content, `Except.error` for the
geometry unpacking failure of the PAGE_SETUP branch. -/
def createBlockFromMarker (blockTypeStr content0 : String)
    (metadata : List (String × Value)) (_position : Nat) :
    Except String (Option Block) :=
  match typeMap blockTypeStr with
  | none => pure none
  | some bt =>
      let content := pyStrip content0
      if content = "" then pure none
      else do
        let cs := content.toList
        let blockContent : Value ←
          match bt with
          | .pageSetup => do
              let background : Value :=
                match dictGet metadata "background" with
                | some v => v
                | none =>
                    .str (match rsearch incgDotPattern cs with
                          | some m => capStr m 1
                          | none => "con_bg.png")
              let pageNumber : Value :=
                match dictGet metadata "page" with
                | some v => v
                | none =>
                    .int (match rsearch textbfNumPattern cs with
                          | some m => (natOfDigits (capStr m 1) : Int)
                          | none => 1)
              let geomInit : List (String × Value) :=
                [("left", .str "5cm"), ("right", .str "1.5cm"),
                 ("top", .str "3cm"), ("bottom", .str "2.5cm")]
              let geometry ←
                match rsearch newgeomPattern cs with
                | some m => parseGeomParams (capStr m 1) geomInit
                | none => pure geomInit
              pure (Value.dict [("background", background),
                                ("geometry", .dict geometry),
                                ("page_number", pageNumber)])
          | .title => pure (titleFromMarker content)
          | .paragraph => pure (Value.str (paragraphFromMarker content))
          | .chart => pure (chartFromMarker content metadata)
          | .bulletList =>
              pure (Value.list ((bulletItemsMarker cs).map (fun s => .str s)))
          | .textChartRow => pure (textChartFromMarker content metadata)
          | .highlightBox => pure (Value.list (highlightSectionsMarker content))
          | .subheaderLegend => pure (subheaderFromMarker content metadata)
          | .spacer => pure (Value.str content)
        pure (some (mkBlock bt blockContent metadata))

/-- Loop state of `_parse_by_markers` (lines 679-683). -/
structure MarkerState where
  blocks : List Block
  curType : Option String
  curMeta : List (String × Value)
  curLines : List String
  curPos : Nat

/-- Models the save step repeated at lines 689-697, 708-716 and 723-731:
emit the pending block when a marker type is open and content lines were
collected. -/
def saveCurrent (st : MarkerState) : Except String (List Block) :=
  match st.curType with
  | some t =>
      if st.curLines ≠ [] then do
        match ← createBlockFromMarker t (String.intercalate "\n" st.curLines)
            st.curMeta st.curPos with
        | some b => pure (st.blocks ++ [b])
        | none => pure st.blocks
      else pure st.blocks
  | none => pure st.blocks

/-- Models the line loop of `_parse_by_markers` (lines 684-721).  A line
matching the marker pattern saves the pending block and opens a new one;
otherwise, inside a block, the `% BLOCK:END` branch is transcribed as
written even though any such line also matches the marker pattern (so that
branch is dead), `% =========` separators are skipped, and other lines are
collected. -/
def markersLoop : List String → Nat → MarkerState → Except String (List Block)
  | [], _, st => saveCurrent st
  | line :: rest, i, st =>
      match matchMarkerLine line with
      | some (ty, metaStr) => do
          let bs ← saveCurrent st
          markersLoop rest (i + 1) ⟨bs, some ty, parseMetadataString metaStr, [], i⟩
      | none =>
          if st.curType.isSome then
            if startsLit "% BLOCK:END" (pyStrip line) then do
              let bs ← saveCurrent st
              markersLoop rest (i + 1) ⟨bs, none, st.curMeta, [], st.curPos⟩
            else if startsLit "% =========" (pyStrip line) then
              markersLoop rest (i + 1) st
            else
              markersLoop rest (i + 1) { st with curLines := st.curLines ++ [line] }
          else
            markersLoop rest (i + 1) st

/-- Models `_parse_by_markers` (lines 671-733). -/
def parseByMarkers (latexContent : String) : Except String (List Block) :=
  markersLoop (pySplitLines latexContent) 0 ⟨[], none, [], [], 0⟩

/-- Models the inline-comment truncation of `_parse_by_regex`
(lines 882-888): cut at the first `%` not preceded by a backslash. -/
def truncAtComment : Option Char → List Char → List Char
  | _, [] => []
  | prev, c :: rest =>
      if c = '%' ∧ prev ≠ some '\\' then []
      else c :: truncAtComment (some c) rest

/-- Models the comment stripping of `_parse_by_regex` (lines 873-891): drop
pure comment lines, truncate inline comments at an unescaped `%`, rejoin. -/
def stripComments (latexContent : String) : String :=
  let cleaned := (pySplitLines latexContent).foldr (fun line acc =>
    if startsLit "%" (pyStrip line) then acc
    else if line.toList.contains '%' then
      String.mk (truncAtComment none line.toList) :: acc
    else line :: acc) []
  String.intercalate "\n" cleaned

/-- Transcribes the page-setup pattern (line 929, `re.DOTALL`):
`\\newgeometry\{([^\x7d]+)\}\s*\\begin\{tikzpicture\}\[remember picture,\s*overlay\](.*?)\\end\{tikzpicture\}`. -/
def pageSetupPattern : Rx :=
  rseq [rlit "\\newgeometry\x7b", rcap 1 (rplus nonBrace true), rlit "\x7d",
        rstar pspace true, rlit "\\begin\x7btikzpicture\x7d[remember picture,",
        rstar pspace true, rlit "overlay]", rcap 2 (rstar dotNL false),
        rlit "\\end\x7btikzpicture\x7d"]

/-- Transcribes the standalone background pattern (line 967, `re.DOTALL`):
`\\begin\{tikzpicture\}\[remember picture,\s*overlay\](.*?)\\end\{tikzpicture\}`. -/
def standaloneTikzPattern : Rx :=
  rseq [rlit "\\begin\x7btikzpicture\x7d[remember picture,", rstar pspace true,
        rlit "overlay]", rcap 1 (rstar dotNL false),
        rlit "\\end\x7btikzpicture\x7d"]

/-- Models `_extract_page_setups` (lines 926-993): full matches with a
geometry directive first (empty geometry dict filled from the directive,
which can raise on a malformed parameter), then bare overlay pictures that
contain a full-page image; both passes delete their matches from the
working text. -/
def extractPageSetups (content : List Char) :
    Except String (List Block × List Char) := do
  let (ms1, res1) := rscanAll pageSetupPattern content
  let blocks1 ← ms1.mapM (fun m => do
    let tikz := (capGet m.caps 2).getD []
    let geometry ← parseGeomParams (capStr m 1) []
    let background :=
      match rsearch incgDotPattern tikz with
      | some r => capStr r 1
      | none => "con_bg.png"
    let pageNumber : Int :=
      match rsearch textbfNumPattern tikz with
      | some r => (natOfDigits (capStr r 1) : Int)
      | none => 1
    pure (⟨.pageSetup,
           .dict [("background", .str background), ("geometry", .dict geometry),
                  ("page_number", .int pageNumber)],
           [("_position", .int m.start)], 0⟩ : Block))
  let (ms2, res2) := rscanAll standaloneTikzPattern res1
  let blocks2 := (ms2.filter (fun m =>
      let tikz := (capGet m.caps 1).getD []
      containsSub tikz "includegraphics" && containsSub tikz "paperwidth")).map
    (fun m =>
      let tikz := (capGet m.caps 1).getD []
      let background :=
        match rsearch incgDotPattern tikz with
        | some r => capStr r 1
        | none => "con_bg.png"
      let pageNumber : Int :=
        match rsearch textbfNumPattern tikz with
        | some r => (natOfDigits (capStr r 1) : Int)
        | none => 1
      (⟨.pageSetup,
        .dict [("background", .str background),
               ("geometry", .dict [("left", .str "5cm"), ("right", .str "1.5cm"),
                                   ("top", .str "3cm"), ("bottom", .str "2.5cm")]),
               ("page_number", .int pageNumber)],
        [("_position", .int m.start)], 0⟩ : Block))
  pure (blocks1 ++ blocks2, res2)

/-- Transcribes the highlight-box pattern (line 997, `re.DOTALL`):
`\\begin\{tikzpicture\}\s*\\node\[draw=black[^\x5d]*\]\s*\(box\)\s*\{(.*?)\};\s*\\end\{tikzpicture\}`. -/
def highlightBoxPattern : Rx :=
  rseq [rlit "\\begin\x7btikzpicture\x7d", rstar pspace true,
        rlit "\\node[draw=black", rstar nonBracketC true, rlit "]",
        rstar pspace true, rlit "(box)", rstar pspace true, rlit "\x7b",
        rcap 1 (rstar dotNL false), rlit "\x7d;", rstar pspace true,
        rlit "\\end\x7btikzpicture\x7d"]

/-- Transcribes the in-box section pattern (line 1007, `re.DOTALL`), which
unlike the marker-tier variant has no `\s*` before the content group:
`\\textbf\{\\color\{(\w+)\}\s*\\underline\{([^\x7d]+)\}\}\s*\\\\?\s*\\color\{\1\}(.*?)(?=\\textbf\{\\color|\\vspace|$)`. -/
def hbRegexSectionPattern : Rx :=
  rseq [rlit "\\textbf\x7b\\color\x7b", rcap 1 (rplus wchar true), rlit "\x7d",
        rstar pspace true, rlit "\\underline\x7b", rcap 2 (rplus nonBrace true),
        rlit "\x7d\x7d", rstar pspace true, rlit "\\", ropt (rlit "\\"),
        rstar pspace true, rlit "\\color\x7b", .backref 1, rlit "\x7d",
        rcap 3 (rstar dotNL false),
        .look (.alt (rlit "\\textbf\x7b\\color") (.alt (rlit "\\vspace") .eol))]

/-- Transcribes `\\fontsize\{\d+\}\{\d+\}\\selectfont` (lines 1019, 1085). -/
def fontsizeSelectfontPattern : Rx :=
  rseq [rlit "\\fontsize\x7b", rplus pdigit true, rlit "\x7d\x7b",
        rplus pdigit true, rlit "\x7d\\selectfont"]

/-- Models `_extract_highlight_boxes` (lines 995-1038). -/
def extractHighlightBoxes (content : List Char) : List Block × List Char :=
  let (ms, res) := rscanAll highlightBoxPattern content
  let blocks := ms.foldr (fun m acc =>
    let inner := (capGet m.caps 1).getD []
    let sectionMatches := (rscanAll hbRegexSectionPattern inner).1
    let sections : List Value :=
      if sectionMatches.isEmpty then
        let cleanContent :=
          pyStrip (String.mk (rsubAll fontsizeSelectfontPattern (fun _ => []) inner))
        if cleanContent ≠ "" then
          [.dict [("title", .str ""), ("color", .str "black"),
                  ("content", .str cleanContent)]]
        else []
      else
        sectionMatches.map (fun sm =>
          .dict [("title", .str (pyStrip (capStr sm 2))),
                 ("color", .str (capStr sm 1)),
                 ("content", .str (pyStrip (capStr sm 3)))])
    if sections.isEmpty then acc
    else mkBlock .highlightBox (.list sections) [("_position", .int m.start)] :: acc) []
  (blocks, res)

/-- Transcribes the subheader-legend pattern (line 1043, `re.DOTALL`):
`\\begin\{minipage\}\[t\]\{0\.50?\\textwidth\}(.*?)\\end\{minipage\}%?\s*\\hfill\s*\\begin\{minipage\}\[t\]\{0\.45?\\textwidth\}(.*?)\\includegraphics\[.*?height=1cm\]\{([^\x7d]+)\}(.*?)\\end\{minipage\}`. -/
def subheaderLegendPattern : Rx :=
  rseq [rlit "\\begin\x7bminipage\x7d[t]\x7b0.5", ropt (rlit "0"),
        rlit "\\textwidth\x7d", rcap 1 (rstar dotNL false),
        rlit "\\end\x7bminipage\x7d", ropt (rlit "%"), rstar pspace true,
        rlit "\\hfill", rstar pspace true,
        rlit "\\begin\x7bminipage\x7d[t]\x7b0.4", ropt (rlit "5"),
        rlit "\\textwidth\x7d", rcap 2 (rstar dotNL false),
        rlit "\\includegraphics[", rstar dotNL false, rlit "height=1cm]\x7b",
        rcap 3 (rplus nonBrace true), rlit "\x7d", rcap 4 (rstar dotNL false),
        rlit "\\end\x7bminipage\x7d"]

/-- Models `_extract_subheader_legends` (lines 1040-1064). -/
def extractSubheaderLegends (content : List Char) : List Block × List Char :=
  let (ms, res) := rscanAll subheaderLegendPattern content
  let blocks := ms.foldr (fun m acc =>
    let underlineMatches := rfindall1 textbfUnderlinePattern ((capGet m.caps 1).getD [])
    if underlineMatches.isEmpty then acc
    else
      let text := String.intercalate "\n" (underlineMatches.map pyStrip)
      mkBlock .subheaderLegend
        (.dict [("text", .str text), ("legend_image", .str (capStr m 3))])
        [("_position", .int m.start)] :: acc) []
  (blocks, res)

/-- Transcribes the text-chart-row pattern (line 1069, `re.DOTALL`):
`\\begin\{minipage\}\[t\]\{(0\.\d+)\\textwidth\}(.*?)\\end\{minipage\}%?\s*\\hfill\s*\\begin\{minipage\}\[t\]\{(0\.\d+)\\textwidth\}(.*?)\\includegraphics\[.*?\]\{([^\x7d]+)\}(.*?)\\end\{minipage\}`. -/
def textChartRowPattern : Rx :=
  rseq [rlit "\\begin\x7bminipage\x7d[t]\x7b",
        rcap 1 (rseq [rlit "0.", rplus pdigit true]), rlit "\\textwidth\x7d",
        rcap 2 (rstar dotNL false), rlit "\\end\x7bminipage\x7d",
        ropt (rlit "%"), rstar pspace true, rlit "\\hfill", rstar pspace true,
        rlit "\\begin\x7bminipage\x7d[t]\x7b",
        rcap 3 (rseq [rlit "0.", rplus pdigit true]), rlit "\\textwidth\x7d",
        rcap 4 (rstar dotNL false), rlit "\\includegraphics[",
        rstar dotNL false, rlit "]\x7b", rcap 5 (rplus nonBrace true),
        rlit "\x7d", rcap 6 (rstar dotNL false), rlit "\\end\x7bminipage\x7d"]

/-- Transcribes `\\vspace\{[^\x7d]+\}` (line 1084). -/
def vspaceSubPattern : Rx :=
  rseq [rlit "\\vspace\x7b", rplus nonBrace true, rlit "\x7d"]

/-- Transcribes `\\fontsize\{(\d+)\}\{(\d+)\}` (line 1090). -/
def fontsizeCapPattern : Rx :=
  rseq [rlit "\\fontsize\x7b", rcap 1 (rplus pdigit true), rlit "\x7d\x7b",
        rcap 2 (rplus pdigit true), rlit "\x7d"]

/-- Models `_extract_text_chart_rows` (lines 1066-1110): skip matches that
look like an already-extracted subheader legend (`height=1cm` in the match),
clean the text side, read the font size, and keep rows with nonempty text
and chart file.  Fractional widths flow through `float()` untouched and are
carried as literals. -/
def extractTextChartRows (content : List Char) : List Block × List Char :=
  let (ms, res) := rscanAll textChartRowPattern content
  let blocks := ms.foldr (fun m acc =>
    if containsSub m.matched "height=1cm" then acc
    else
      let textContent := (capGet m.caps 2).getD []
      let t1 := rsubAll vspaceSubPattern (fun _ => []) textContent
      let t2 := rsubAll fontsizeSelectfontPattern (fun _ => []) t1
      let t3 := rsubAll (rlit "\\centering") (fun _ => []) t2
      let text := pyStrip (String.mk t3)
      let fontSize : Int :=
        match rsearch fontsizeCapPattern textContent with
        | some f => (natOfDigits (capStr f 1) : Int)
        | none => 10
      let lineHeight : Int :=
        match rsearch fontsizeCapPattern textContent with
        | some f => (natOfDigits (capStr f 2) : Int)
        | none => 13
      let chartFile := capStr m 5
      if text ≠ "" ∧ chartFile ≠ "" then
        mkBlock .textChartRow
          (.dict [("text", .str text), ("chart_file", .str chartFile)])
          [("_position", .int m.start), ("text_width", .float (capStr m 1)),
           ("chart_width", .float (capStr m 3)), ("font_size", .int fontSize),
           ("line_height", .int lineHeight)] :: acc
      else acc) []
  (blocks, res)

/-- Transcribes the standalone-chart pattern (line 1115, `re.DOTALL`):
`\\noindent\s*\\includegraphics\[([^\x5d]*)\]\{([^\x7d]+)\}`. -/
def chartNoindentPattern : Rx :=
  rseq [rlit "\\noindent", rstar pspace true, rlit "\\includegraphics[",
        rcap 1 (rstar nonBracketC true), rlit "]\x7b",
        rcap 2 (rplus nonBrace true), rlit "\x7d"]

/-- Transcribes the centered-chart pattern (line 1139, `re.DOTALL`):
`\\begin\{center\}\s*\\includegraphics\[([^\x5d]*)\]\{([^\x7d]+)\}\s*\\end\{center\}`. -/
def chartCenterPattern : Rx :=
  rseq [rlit "\\begin\x7bcenter\x7d", rstar pspace true,
        rlit "\\includegraphics[", rcap 1 (rstar nonBracketC true),
        rlit "]\x7b", rcap 2 (rplus nonBrace true), rlit "\x7d",
        rstar pspace true, rlit "\\end\x7bcenter\x7d"]

/-- Transcribes `width=([^,\x5d]+)` (lines 1123, 1145). -/
def widthPattern : Rx :=
  rseq [rlit "width=", rcap 1 (rplus nonCommaBracket true)]

/-- The width normalization shared by both chart shapes (lines 1124-1126,
1146-1148): the captured width, defaulting to `\linewidth`, with the
`\linewidth` sentinel spelled `linewidth`. -/
def chartWidth (options : List Char) : String :=
  let width :=
    match rsearch widthPattern options with
    | some w => capStr w 1
    | none => "\\linewidth"
  if width = "\\linewidth" then "linewidth" else width

/-- Models `_extract_charts` (lines 1112-1159): the `\noindent` shape first,
then the `center`-environment shape on the reduced text. -/
def extractCharts (content : List Char) : List Block × List Char :=
  let (ms1, res1) := rscanAll chartNoindentPattern content
  let blocks1 := ms1.map (fun m =>
    mkBlock .chart (.str (capStr m 2))
      [("_position", .int m.start), ("width", .str (chartWidth ((capGet m.caps 1).getD []))),
       ("alignment", .str "center")])
  let (ms2, res2) := rscanAll chartCenterPattern res1
  let blocks2 := ms2.map (fun m =>
    mkBlock .chart (.str (capStr m 2))
      [("_position", .int m.start), ("width", .str (chartWidth ((capGet m.caps 1).getD []))),
       ("alignment", .str "center")])
  (blocks1 ++ blocks2, res2)

/-- Transcribes `\\begin\{itemize\}(.*?)\\end\{itemize\}` (line 1163,
`re.DOTALL`). -/
def itemizePattern : Rx :=
  rseq [rlit "\\begin\x7bitemize\x7d", rcap 1 (rstar dotNL false),
        rlit "\\end\x7bitemize\x7d"]

/-- Transcribes `\\item\s*(.*?)(?=\\item|$)` (line 1170, `re.DOTALL`). -/
def itemRegexPattern : Rx :=
  rseq [rlit "\\item", rstar pspace true, rcap 1 (rstar dotNL false),
        .look (.alt (rlit "\\item") .eol)]

/-- Transcribes `\s+` (line 1267). -/
def wsRunPattern : Rx := rplus pspace true

/-- Models `_clean_text` (lines 1264-1270): collapse whitespace runs to one
space, then strip. -/
def cleanText (s : String) : String :=
  pyStrip (String.mk (rsubAll wsRunPattern (fun _ => [' ']) s.toList))

/-- Models `_extract_bullet_lists` (lines 1161-1183). -/
def extractBulletLists (content : List Char) : List Block × List Char :=
  let (ms, res) := rscanAll itemizePattern content
  let blocks := ms.foldr (fun m acc =>
    let inner := (capGet m.caps 1).getD []
    let items := ((rscanAll itemRegexPattern inner).1.map (fun im =>
        pyStrip (capStr im 1))).filter (fun s => s ≠ "") |>.map cleanText
    if items.isEmpty then acc
    else
      mkBlock .bulletList (.list (items.map (fun s => .str s)))
        [("_position", .int m.start)] :: acc) []
  (blocks, res)

/-- Transcribes the title pattern (line 1188, `re.DOTALL`):
`\\noindent\s*\{\\fontsize\{(\d+)\}\{(\d+)\}\\selectfont\s+\\textbf\{\\color\{(\w+)\}(?:\s*\\underline\{)?([^\x7d]+)\}?\}\}`. -/
def titleRegexPattern : Rx :=
  rseq [rlit "\\noindent", rstar pspace true, rlit "\x7b\\fontsize\x7b",
        rcap 1 (rplus pdigit true), rlit "\x7d\x7b", rcap 2 (rplus pdigit true),
        rlit "\x7d\\selectfont", rplus pspace true,
        rlit "\\textbf\x7b\\color\x7b", rcap 3 (rplus wchar true), rlit "\x7d",
        ropt (rseq [rstar pspace true, rlit "\\underline\x7b"]),
        rcap 4 (rplus nonBrace true), ropt (rlit "\x7d"), rlit "\x7d\x7d"]

/-- Models `_extract_titles` (lines 1185-1221): level from the font size,
underline from the raw match text. -/
def extractTitles (content : List Char) : List Block × List Char :=
  let (ms, res) := rscanAll titleRegexPattern content
  let blocks := ms.map (fun m =>
    let fontSize := natOfDigits (capStr m 1)
    let level : Int := if fontSize ≥ 20 then 1 else if fontSize ≥ 11 then 2 else 3
    let underline := containsSub m.matched "\\underline\x7b"
    mkBlock .title (.str (pyStrip (capStr m 4)))
      [("_position", .int m.start), ("level", .int level),
       ("color", .str (capStr m 3)), ("underline", .bool underline)])
  (blocks, res)

/-- Transcribes the paragraph pattern (line 1226, `re.DOTALL`):
`\\noindent\s*\{\\fontsize\{(\d+)\}\{(\d+)\}\\selectfont(?:\s*\\color\{(\w+)\})?(.*?)\}`. -/
def paragraphRegexPattern : Rx :=
  rseq [rlit "\\noindent", rstar pspace true, rlit "\x7b\\fontsize\x7b",
        rcap 1 (rplus pdigit true), rlit "\x7d\x7b", rcap 2 (rplus pdigit true),
        rlit "\x7d\\selectfont",
        ropt (rseq [rstar pspace true, rlit "\\color\x7b",
                    rcap 3 (rplus wchar true), rlit "\x7d"]),
        rcap 4 (rstar dotNL false), rlit "\x7d"]

/-- Transcribes `\\textbf\{(.*?)\}` (line 1242, `re.DOTALL`), substituted by
its group. -/
def textbfCapPattern : Rx :=
  rseq [rlit "\\textbf\x7b", rcap 1 (rstar dotNL false), rlit "\x7d"]

/-- Models `_extract_paragraphs` (lines 1223-1262): skip spans still shaped
like titles, unwrap bold, clean, and keep texts longer than five
characters. -/
def extractParagraphs (content : List Char) : List Block × List Char :=
  let (ms, res) := rscanAll paragraphRegexPattern content
  let blocks := ms.foldr (fun m acc =>
    let fontSize : Int := (natOfDigits (capStr m 1) : Int)
    let lineHeight : Int := (natOfDigits (capStr m 2) : Int)
    let color := match capGet m.caps 3 with
      | some c => String.mk c
      | none => "black"
    let text0 := pyStrip (capStr m 4)
    if containsSub text0.toList "\\textbf\x7b\\color\x7b" then acc
    else
      let bold := containsSub text0.toList "\\textbf\x7b"
      let text1 :=
        if bold then
          String.mk (rsubAll textbfCapPattern (fun tm => (capGet tm.caps 1).getD [])
            text0.toList)
        else text0
      let text := cleanText text1
      if text ≠ "" ∧ text.length > 5 then
        mkBlock .paragraph (.str text)
          [("_position", .int m.start), ("font_size", .int fontSize),
           ("line_height", .int lineHeight), ("color", .str color),
           ("bold", .bool bold)] :: acc
      else acc) []
  (blocks, res)

/-- The sort key `b.metadata.get('_position', 9999)` (line 918). -/
def posKey (b : Block) : Int :=
  match dictGet b.metadata "_position" with
  | some (.int n) => n
  | _ => 9999

/-- Stable insertion keeping earlier elements with equal keys first, as the
stable Python `list.sort` does. -/
def insSorted (b : Block) : List Block → List Block
  | [] => [b]
  | x :: xs => if posKey b < posKey x then b :: x :: xs else x :: insSorted b xs

/-- Stable sort by `posKey`. -/
def sortByPosition (bs : List Block) : List Block :=
  bs.foldl (fun acc b => insSorted b acc) []

/-- Models `_parse_by_regex` (lines 869-924): strip comments, run the eight
extraction passes in their fixed order on a shrinking text, sort the
accumulated blocks by original offset, and drop the `_position` bookkeeping
key. -/
def parseByRegex (latexContent : String) : Except String (List Block) := do
  let content := (stripComments latexContent).toList
  let (bs1, c1) ← extractPageSetups content
  let (bs2, c2) := extractHighlightBoxes c1
  let (bs3, c3) := extractSubheaderLegends c2
  let (bs4, c4) := extractTextChartRows c3
  let (bs5, c5) := extractCharts c4
  let (bs6, c6) := extractBulletLists c5
  let (bs7, c7) := extractTitles c6
  let (bs8, _c8) := extractParagraphs c7
  let blocks := bs1 ++ bs2 ++ bs3 ++ bs4 ++ bs5 ++ bs6 ++ bs7 ++ bs8
  pure ((sortByPosition blocks).map (fun b =>
    { b with metadata := dictPop b.metadata "_position" }))

/-- Models `LaTeXParser.parse` (lines 633-648): the marker tier first, the
structural fallback only when the marker tier produced no blocks. -/
def parse (latexContent : String) : Except String (List Block) := do
  let blocks ← parseByMarkers latexContent
  if blocks.isEmpty then parseByRegex latexContent else pure blocks

/-- Whether any line of the text matches the `% BLOCK:<TYPE>` marker
pattern, the sense in which a document "contains markers". -/
def containsBlockMarker (s : String) : Bool :=
  (pySplitLines s).any (fun l => (matchMarkerLine l).isSome)

/-!
Concrete fixtures used by the claim theorems.
-/

/-- Paragraph block "A". -/
def blockA : Block := mkBlock .paragraph (.str "A") []

/-- Paragraph block "B". -/
def blockB : Block := mkBlock .paragraph (.str "B") []

/-- Paragraph block "C". -/
def blockC : Block := mkBlock .paragraph (.str "C") []

/-- A manager holding the sequence [A, B, C]. -/
def mgrABC : BlockManager :=
  { BlockManager.init .executiveSummary with blocks := [blockA, blockB, blockC] }

/-- A chart block whose estimated height is 400. -/
def c400b : Block := mkBlock .chart (.str "ch1.png") [("height", .int 400)]

/-- A chart block whose estimated height is 100. -/
def c100b : Block := mkBlock .chart (.str "ch1.png") [("height", .int 100)]

/-- A 150-character paragraph content string. -/
def s150 : String := String.mk (List.replicate 150 'x')

/-- A paragraph block with 150 characters of content. -/
def para150 : Block := mkBlock .paragraph (.str s150) []

/-- A document whose only marker has an unrecognized type name, followed by
plain itemize markup. -/
def cex3 : String :=
  "% BLOCK:FOOBAR\n\\begin\x7bitemize\x7d\n\\item Hello world\n\\end\x7bitemize\x7d"

/-- The bullet-list block the Tier-2 fallback recovers from `cex3`. -/
def bbBlock : Block := ⟨.bulletList, .list [.str "Hello world"], [], 37⟩

/-- A document with one recognized `SPACER` marker. -/
def cexSpacer : String := "% BLOCK:SPACER\nhello"

/-- The spacer block the marker tier recovers from `cexSpacer`. -/
def spacerBlock : Block := ⟨.spacer, .str "hello", [], 20⟩

/-- A marker document whose geometry directive holds a parameter with two
equals signs. -/
def cex5 : String := "% BLOCK:PAGE_SETUP\n\\newgeometry\x7bleft=1=2\x7d"

/-- C1.  The spec claims `move_block(0, 2)` on [A, B, C] yields [B, C, A]
(`to` as the insertion index after removal).  The code instead decrements
`to` when it exceeds `from` before reinserting, yielding [B, A, C]; the same
slip makes `move_block(i, i+1)` — the call the move-down button of the
application issues — a no-op, so the spec states the evident intent and the
decrement is a code bug.  This theorem evaluates the code at the failing
inputs. -/
theorem claim_C1_move_block_eval :
    mgrABC.moveBlock 0 2 = ({ mgrABC with blocks := [blockB, blockA, blockC] }, true)
      ∧ mgrABC.moveBlock 0 1 = (mgrABC, true) := by
  exact ⟨rfl, rfl⟩

/-- C2, counterexample.  Three blocks with estimated heights [400, 400, 100]
and budget 750: the planner does not return [2]. -/
theorem claim_C2_cex :
    estimate_block_height c400b = 400 ∧ estimate_block_height c100b = 100 ∧
    calculate_page_breaks [c400b, c400b, c100b] 750 ≠ [2] := by
  refine ⟨rfl, rfl, ?_⟩
  decide

/-- C2, amended.  Three blocks with estimated heights [400, 400, 100] and
budget 750 produce a break before index 1 only: processing block 1,
400 + 400 > 750 triggers the break at index 1, and block 2 (height 100)
then fits on the second page. -/
theorem claim_C2_breaks :
    estimate_block_height c400b = 400 ∧ estimate_block_height c100b = 100 ∧
    calculate_page_breaks [c400b, c400b, c100b] 750 = [1] := by
  exact ⟨rfl, rfl, rfl⟩

/-- C4, counterexample.  For a 150-character paragraph the estimator returns
max(1, 150 div 100) × 15 + 10 = 25, not the claimed
ceil(150 / 100) × 15 + 10 = 40. -/
theorem claim_C4_cex :
    (pyStr para150.content).length = 150 ∧
    estimate_block_height para150 = 25 ∧
    ((((pyStr para150.content).length + 99) / 100) * 15 + 10 : Nat) = 40 ∧
    estimate_block_height para150 ≠
      (((((pyStr para150.content).length + 99) / 100) * 15 + 10 : Nat) : Int) := by
  refine ⟨rfl, rfl, rfl, ?_⟩
  decide

/-- C4, amended.  For every Paragraph block with string content, the height
estimator returns max(1, floor(character_count / 100)) × 15 + 10, where
character_count is the length of the content string. -/
theorem claim_C4_paragraph_height :
    ∀ (c : String) (md : List (String × Value)) (h : Int),
      estimate_block_height ⟨.paragraph, .str c, md, h⟩ =
        (((max 1 (c.length / 100)) * 15 + 10 : Nat) : Int) := by
  intro c md h
  rfl

/-- C5.  The spec claims `parse` never raises; parsing the marker document
`% BLOCK:PAGE_SETUP` over `\newgeometry` with the parameter `left=1=2`
reaches the tuple unpacking `key, val = param.strip().split('=')` of the
geometry loop, which raises `ValueError` — a code bug relative to the
stated best-effort contract.  This theorem evaluates the code at the
failing input. -/
theorem claim_C5_parse_raises :
    parse cex5 = .error "ValueError: too many values to unpack (expected 2)" := by
  rfl

/-- C3, counterexample.  `cex3` contains a `% BLOCK:<TYPE>` marker, yet the
marker tier yields zero blocks (the type name is unrecognized) and `parse`
does not return the marker tier result: it falls through to the Tier-2
structural fallback and recovers a bullet list. -/
theorem claim_C3_cex :
    containsBlockMarker cex3 = true ∧
    parseByMarkers cex3 = .ok [] ∧
    parse cex3 = .ok [bbBlock] ∧
    parse cex3 ≠ parseByMarkers cex3 := by
  refine ⟨rfl, rfl, rfl, ?_⟩
  rw [show parse cex3 = .ok [bbBlock] from rfl,
      show parseByMarkers cex3 = .ok [] from rfl]
  simp

/-- C3, amended.  Marker dispatch is all-or-nothing only at the level of
produced blocks: whenever the marker tier yields at least one block, `parse`
returns exactly that result and Tier 2 is never invoked; but whenever the
marker tier yields zero blocks — even for documents that do contain markers,
e.g. when every marker type name is unrecognized — `parse` falls through to
the Tier-2 structural fallback. -/
theorem claim_C3_dispatch :
    (∀ (s : String) (bs : List Block),
        parseByMarkers s = .ok bs → bs ≠ [] → parse s = .ok bs) ∧
    (∀ s : String, parseByMarkers s = .ok [] → parse s = parseByRegex s) := by
  constructor
  · intro s bs hm hne
    unfold parse
    rw [hm]
    cases bs with
    | nil => exact absurd rfl hne
    | cons b rest => rfl
  · intro s hm
    unfold parse
    rw [hm]
    rfl

/-- C3, witness: the dispatch theorem applied at concrete documents — a
recognized `SPACER` marker document whose marker-tier result is returned,
and `cex3`, where the empty marker-tier result sends `parse` to Tier 2. -/
theorem claim_C3_dispatch_witness :
    parse cexSpacer = .ok [spacerBlock] ∧ parse cex3 = parseByRegex cex3 :=
  ⟨claim_C3_dispatch.1 cexSpacer [spacerBlock] rfl (by simp),
   claim_C3_dispatch.2 cex3 rfl⟩

/-- Deserializing the serialized form of any block restores it exactly. -/
theorem fromDict_toDict (b : Block) : Block.fromDict b.toDict = some b := by
  rcases b with ⟨t, c, md, h⟩
  cases t <;> rfl

/-- Mapping the round trip over a serialized list restores the list. -/
theorem mapM_fromDict_toDict (bs : List Block) :
    (bs.map Block.toDict).mapM Block.fromDict = some bs := by
  induction bs with
  | nil => rfl
  | cons b rest ih =>
      simp only [List.map_cons, List.mapM_cons, fromDict_toDict, ih,
        Option.pure_def, Option.bind_eq_bind, Option.bind_some]
      rfl

/-- C6.  Serialization round-trip: for every block, deserializing the plain
structured form produced by serializing it (`Block.from_dict` after
`Block.to_dict`) restores its type, content, metadata — and the stored
height — exactly, and `import_json` after `export_json` restores the block
sequence in order. -/
theorem claim_C6_roundtrip :
    (∀ b : Block, Block.fromDict b.toDict = some b) ∧
    (∀ m target : BlockManager,
        target.importJson m.exportJson = some { target with blocks := m.blocks }) := by
  constructor
  · exact fromDict_toDict
  · intro m target
    unfold BlockManager.importJson BlockManager.exportJson
    rw [mapM_fromDict_toDict]
    rfl

/-- The estimator never reads the stored `estimated_height` field. -/
theorem estimate_ignores_stored (t : BlockType) (c : Value)
    (md : List (String × Value)) (h h' : Int) :
    estimate_block_height ⟨t, c, md, h⟩ = estimate_block_height ⟨t, c, md, h'⟩ := by
  cases t <;> rfl

/-- Field-update form of `estimate_ignores_stored`. -/
theorem estimate_set_stored (b : Block) (x : Int) :
    estimate_block_height { b with estimated_height := x } =
      estimate_block_height b := by
  rcases b with ⟨t, c, md, h⟩
  exact estimate_ignores_stored t c md x h

/-- C7.  `add_block` with a type outside the section palette fails with the
invalid-block-type error and performs no mutation (the error result carries
no new state, and the source raises before touching the list); in
particular HighlightBox is rejected for Tables and accepted for Executive
Summary. -/
theorem claim_C7_palette :
    (∀ (m : BlockManager) (bt : BlockType) (c : Value)
        (md : Option (List (String × Value))) (p : Option Int),
        bt ∉ m.available_blocks →
        m.addBlock bt c md p =
          .error ("Block type " ++ bt.pyName ++ " not available in "
                  ++ m.section_type.pyName)) ∧
    ((BlockManager.init .tables).addBlock .highlightBox (.str "x") none none =
      .error ("Block type BlockType.HIGHLIGHT_BOX not available in "
              ++ "SectionType.TABLES")) ∧
    (∃ res, (BlockManager.init .executiveSummary).addBlock .highlightBox
        (.str "x") none none = .ok res) := by
  refine ⟨?_, rfl, ⟨_, rfl⟩⟩
  intro m bt c md p hmem
  unfold BlockManager.addBlock
  rw [if_pos hmem]

/-- C7, witness: the rejection branch applied at the concrete Tables
manager. -/
theorem claim_C7_palette_witness :
    (BlockManager.init .tables).addBlock .highlightBox (.str "x") none none =
      .error ("Block type BlockType.HIGHLIGHT_BOX not available in "
              ++ "SectionType.TABLES") :=
  claim_C7_palette.1 (BlockManager.init .tables) .highlightBox (.str "x")
    none none (by decide)

/-- C8.  Out-of-range indices: `remove_block` returns `none`, `move_block`
and `update_block` return `false` (for an out-of-range `from` or `to` in the
move case), none of them raises, and the manager state — in particular the
block sequence — is unchanged. -/
theorem claim_C8_out_of_range :
    (∀ (m : BlockManager) (i : Int),
        ¬ (0 ≤ i ∧ i < (m.blocks.length : Int)) →
        m.removeBlock i = (m, none)) ∧
    (∀ (m : BlockManager) (f t : Int),
        ¬ (0 ≤ f ∧ f < (m.blocks.length : Int)) →
        m.moveBlock f t = (m, false)) ∧
    (∀ (m : BlockManager) (f t : Int),
        ¬ (0 ≤ t ∧ t ≤ (m.blocks.length : Int)) →
        m.moveBlock f t = (m, false)) ∧
    (∀ (m : BlockManager) (i : Int) (c : Option Value)
        (md : Option (List (String × Value))),
        ¬ (0 ≤ i ∧ i < (m.blocks.length : Int)) →
        m.updateBlock i c md = (m, false)) := by
  refine ⟨?_, ?_, ?_, ?_⟩
  · intro m i hr
    unfold BlockManager.removeBlock
    rw [if_neg hr]
  · intro m f t hr
    unfold BlockManager.moveBlock
    rw [if_neg (by tauto)]
  · intro m f t hr
    unfold BlockManager.moveBlock
    rw [if_neg (by tauto)]
  · intro m i c md hr
    unfold BlockManager.updateBlock
    rw [if_neg hr]

/-- C8, witness: the out-of-range branches applied at the concrete manager
[A, B, C] with indices 5, -1 and 7. -/
theorem claim_C8_witness :
    mgrABC.removeBlock 5 = (mgrABC, none) ∧
    mgrABC.moveBlock (-1) 0 = (mgrABC, false) ∧
    mgrABC.moveBlock 0 7 = (mgrABC, false) ∧
    mgrABC.updateBlock 5 none none = (mgrABC, false) :=
  ⟨claim_C8_out_of_range.1 mgrABC 5 (by decide),
   claim_C8_out_of_range.2.1 mgrABC (-1) 0 (by decide),
   claim_C8_out_of_range.2.2.1 mgrABC 0 7 (by decide),
   claim_C8_out_of_range.2.2.2 mgrABC 5 none none (by decide)⟩

/-- C9.  Height consistency: after a successful `add_block`, the created
block (which is the one inserted into the sequence) carries exactly the
estimator value for its content and metadata; after a successful
`update_block`, the block now stored at the updated index does too; and the
estimator is a pure function, so repeated calls on an unchanged block agree
trivially. -/
theorem claim_C9_height_consistency :
    (∀ (m : BlockManager) (bt : BlockType) (c : Value)
        (md : Option (List (String × Value))) (p : Option Int)
        (m' : BlockManager) (b : Block),
        m.addBlock bt c md p = .ok (m', b) →
        b.estimated_height = estimate_block_height b ∧ b ∈ m'.blocks) ∧
    (∀ (m : BlockManager) (i : Int) (c : Option Value)
        (md : Option (List (String × Value))) (m' : BlockManager),
        m.updateBlock i c md = (m', true) →
        ∃ b, m'.blocks.get? i.toNat = some b ∧
          b.estimated_height = estimate_block_height b) ∧
    (∀ b : Block, estimate_block_height b = estimate_block_height b) := by
  refine ⟨?_, ?_, fun _ => rfl⟩
  · intro m bt c md p m' b hok
    unfold BlockManager.addBlock at hok
    by_cases hmem : bt ∉ m.available_blocks
    · rw [if_pos hmem] at hok
      exact absurd hok (by simp)
    · rw [if_neg hmem] at hok
      cases p with
      | none =>
          simp only [Except.ok.injEq, Prod.mk.injEq] at hok
          obtain ⟨hm', hb⟩ := hok
          subst hm'
          subst hb
          refine ⟨(estimate_ignores_stored bt c (md.getD []) 50 _).symm.trans rfl, ?_⟩
          exact List.mem_append_right _ (List.mem_singleton_self _)
      | some pp =>
          simp only [Except.ok.injEq, Prod.mk.injEq] at hok
          obtain ⟨hm', hb⟩ := hok
          subst hm'
          subst hb
          refine ⟨(estimate_ignores_stored bt c (md.getD []) 50 _).symm.trans rfl, ?_⟩
          simp [pyInsert]
  · intro m i c md m' hupd
    unfold BlockManager.updateBlock at hupd
    by_cases hrange : 0 ≤ i ∧ i < (m.blocks.length : Int)
    · rw [if_pos hrange] at hupd
      cases hget : m.blocks.get? i.toNat with
      | none =>
          rw [hget] at hupd
          exact absurd hupd (by simp)
      | some b0 =>
          rw [hget] at hupd
          simp only [Prod.mk.injEq] at hupd
          obtain ⟨hm', -⟩ := hupd
          subst hm'
          have hlt : i.toNat < m.blocks.length := by omega
          refine ⟨_, List.get?_set_eq_of_lt _ hlt, ?_⟩
          rcases b0 with ⟨t0, c0, md0, h0⟩
          exact (estimate_ignores_stored t0 (c.getD c0) _ h0 _).symm.trans rfl
    · rw [if_neg hrange] at hupd
      exact absurd hupd (by simp)

/-- C9, witness: the two mutation paths applied at concrete calls. -/
theorem claim_C9_witness :
    (∃ (m' : BlockManager) (b : Block),
      (BlockManager.init .tables).addBlock .paragraph (.str "hi") none none =
        .ok (m', b) ∧
      b.estimated_height = estimate_block_height b ∧ b ∈ m'.blocks) ∧
    (∃ b, ((mgrABC.updateBlock 0 (some (.str "Z")) none).1).blocks.get?
        ((0 : Int).toNat) = some b ∧
      b.estimated_height = estimate_block_height b) :=
  ⟨⟨_, _, rfl, claim_C9_height_consistency.1 (BlockManager.init .tables)
      .paragraph (.str "hi") none none _ _ rfl⟩,
   claim_C9_height_consistency.2.1 mgrABC 0 (some (.str "Z")) none _ rfl⟩

/-- `Block.from_dict` stores the serialized `estimated_height` as given,
defaulting to 50 when absent, without recomputation. -/
theorem fromDict_height (d : List (String × Value)) (b : Block)
    (hb : Block.fromDict (.dict d) = some b) :
    (dictGet d "estimated_height" = none → b.estimated_height = 50) ∧
    (∀ n : Int, dictGet d "estimated_height" = some (.int n) →
      b.estimated_height = n) := by
  simp only [Block.fromDict, Option.bind_eq_bind, Option.bind_eq_some,
    Option.some.injEq] at hb
  obtain ⟨tv, htv, ts, hts, bt, hbt, cv, hcv, mv, hmv, hv, hhv, hbeq⟩ := hb
  subst hbeq
  constructor
  · intro hnone
    rw [hnone] at hhv
    simp only [heightField, Option.some.injEq] at hhv
    exact hhv.symm
  · intro n hsome
    rw [hsome] at hhv
    simp only [heightField, Option.some.injEq] at hhv
    exact hhv.symm

/-- The pagination loop is insensitive to the stored height field. -/
theorem calcBreaksAux_map_set (x ph : Int) :
    ∀ (bs : List Block) (cur : Int) (i : Nat),
      calcBreaksAux (bs.map fun b => { b with estimated_height := x }) ph cur i =
        calcBreaksAux bs ph cur i := by
  intro bs
  induction bs with
  | nil => intro cur i; rfl
  | cons b rest ih =>
      intro cur i
      simp only [List.map_cons, calcBreaksAux, estimate_set_stored]
      split
      · rw [ih]
      · rw [ih]

/-- Serialized form of a paragraph block whose stored height (999) does not
match its content. -/
def c10entry : List (String × Value) :=
  [("type", .str "paragraph"), ("content", .str "hi"),
   ("metadata", .dict []), ("estimated_height", .int 999)]

/-- One-entry import payload made of `c10entry`. -/
def c10data : List Value := [.dict c10entry]

/-- The block `import_json` builds from `c10entry`: stored height 999 kept
as is. -/
def c10block : Block := ⟨.paragraph, .str "hi", [], 999⟩

/-- The manager state after importing `c10data` into a Tables manager. -/
def c10mgr : BlockManager := ⟨.tables, [c10block], SECTION_PALETTES .tables⟩

/-- C10.  `import_json` stores each block's serialized `estimated_height`
exactly as given (default 50 when absent) without recomputing it, whereas
`get_total_height` and the pagination planner recompute every height from
current content and metadata, ignoring the stored field; hence after
importing serialized heights that do not match the content, the total
height differs from the sum of the stored fields. -/
theorem claim_C10_import_heights :
    (∀ (d : List (String × Value)) (b : Block),
        Block.fromDict (.dict d) = some b →
        (dictGet d "estimated_height" = none → b.estimated_height = 50) ∧
        (∀ n : Int, dictGet d "estimated_height" = some (.int n) →
          b.estimated_height = n)) ∧
    (∀ (m : BlockManager) (x : Int),
        BlockManager.getTotalHeight
          { m with blocks := m.blocks.map fun b => { b with estimated_height := x } } =
          m.getTotalHeight) ∧
    (∀ (bs : List Block) (x ph : Int),
        calculate_page_breaks (bs.map fun b => { b with estimated_height := x }) ph =
          calculate_page_breaks bs ph) ∧
    ((BlockManager.init .tables).importJson c10data = some c10mgr ∧
      c10mgr.getTotalHeight = 25 ∧
      (c10mgr.blocks.map Block.estimated_height).sum = 999 ∧
      c10mgr.getTotalHeight ≠ (c10mgr.blocks.map Block.estimated_height).sum) := by
  refine ⟨fromDict_height, ?_, ?_, rfl, rfl, rfl, by decide⟩
  · intro m x
    unfold BlockManager.getTotalHeight
    rw [List.map_map]
    have hfun : (estimate_block_height ∘ fun b => { b with estimated_height := x }) =
        estimate_block_height := by
      funext b
      exact estimate_set_stored b x
    rw [hfun]
  · intro bs x ph
    exact calcBreaksAux_map_set x ph bs 0 0

/-- C10, witness: the preservation branch applied at the concrete serialized
block with stored height 999. -/
theorem claim_C10_witness :
    Block.fromDict (.dict c10entry) = some c10block ∧
    c10block.estimated_height = 999 :=
  ⟨rfl, (claim_C10_import_heights.1 c10entry c10block rfl).2 999 rfl⟩
